import Mathlib

/-!
Shallow embedding of the cascading-deletion engine of the ragflow-admin
repository (`src/api/services/mysql_client.py`, with the connection settings
from `src/api/settings.py` and the batch-delete route from
`src/api/apps/user_app.py`).

Tables are modelled as Lean lists of row records; an SQL `DELETE ... WHERE p`
becomes a list filter keeping the rows where `p` fails, with the rowcount the
number of rows matching `p`.  The transaction wrapper
`MySQLClient._execute_transaction` is modelled by `execute_transaction`,
which threads an explicit event trace (connection acquire/release, autocommit
switches, commit/rollback) so that the resource guarantees of the spec can be
stated.  Rollback is modelled by discarding the working database state and
returning the database as it was when the transaction began, which is the
semantics the underlying MySQL connection provides for `conn.rollback()`.
-/

/-- Row of the `user` table (only the columns the deletion engine touches). -/
structure UserRow where
  id : String
  email : String
  nickname : String
  deriving Repr, DecidableEq

/-- Row of the `tenant` table. -/
structure TenantRow where
  id : String
  deriving Repr, DecidableEq

/-- Row of the `user_tenant` link table. -/
structure UserTenantRow where
  id : String
  user_id : String
  tenant_id : String
  deriving Repr, DecidableEq

/-- Row of the `knowledgebase` (dataset) table.  The aggregate counters are
modelled as `Int`, matching the signed MySQL integer columns. -/
structure KnowledgebaseRow where
  id : String
  tenant_id : String
  name : String
  doc_num : Int
  chunk_num : Int
  token_num : Int
  deriving Repr, DecidableEq

/-- Row of the `document` table.  `run` is the parsing status column after
`CAST(run AS SIGNED)` (the column itself stores strings or integers; every
query in the source reads it through that cast). -/
structure DocumentRow where
  id : String
  kb_id : String
  name : String
  chunk_num : Int
  token_num : Int
  run : Int
  deriving Repr, DecidableEq

/-- Row of the `task` table. -/
structure TaskRow where
  id : String
  doc_id : String
  deriving Repr, DecidableEq

/-- Row of the `file` table. -/
structure FileRow where
  id : String
  source_type : String
  deriving Repr, DecidableEq

/-- Row of the `file2document` join table.  `file_id` is nullable in the
schema, hence `Option`. -/
structure File2DocumentRow where
  id : String
  file_id : Option String
  document_id : String
  deriving Repr, DecidableEq

/-- Row of the `dialog` (chat assistant) table. -/
structure DialogRow where
  id : String
  tenant_id : String
  deriving Repr, DecidableEq

/-- Row of the `conversation` (chat session) table. -/
structure ConversationRow where
  id : String
  dialog_id : String
  deriving Repr, DecidableEq

/-- Row of the `user_canvas` (agent) table. -/
structure UserCanvasRow where
  id : String
  user_id : String
  deriving Repr, DecidableEq

/-- Row of the `user_canvas_version` table. -/
structure UserCanvasVersionRow where
  id : String
  user_canvas_id : String
  deriving Repr, DecidableEq

/-- The relational store: one list per table the deletion engine touches. -/
structure DB where
  user : List UserRow
  tenant : List TenantRow
  user_tenant : List UserTenantRow
  knowledgebase : List KnowledgebaseRow
  document : List DocumentRow
  task : List TaskRow
  file : List FileRow
  file2document : List File2DocumentRow
  dialog : List DialogRow
  conversation : List ConversationRow
  user_canvas : List UserCanvasRow
  user_canvas_version : List UserCanvasVersionRow
  deriving Repr, DecidableEq

/-- Connection settings, from `Settings` in `src/api/settings.py`: each
property defaults to the empty string when the YAML key is missing. -/
structure AdminSettings where
  mysql_host : String
  mysql_port : Int
  mysql_database : String
  mysql_user : String
  mysql_password : String
  deriving Repr, DecidableEq

/-- Model of `Settings.is_mysql_configured` (settings.py line 186):
`bool(self.mysql_host and self.mysql_database and self.mysql_user)` —
a missing parameter is the empty string, which is falsy. -/
def AdminSettings.is_mysql_configured (st : AdminSettings) : Bool :=
  !(st.mysql_host == "") && !(st.mysql_database == "") && !(st.mysql_user == "")

/-- Errors an operation can surface: `clientError` is the typed
`MySQLClientError(message, code)` of mysql_client.py; `databaseError` stands
for any other exception raised while executing statements (driver errors,
connection drops, ...). -/
inductive OpError where
  | clientError (message : String) (code : Int)
  | databaseError (message : String)
  deriving Repr, DecidableEq

/-- The error `_get_connection` raises when `is_mysql_configured` is false
(mysql_client.py line 65): `MySQLClientError("MySQL connection not
configured")` with the default code `-1`. -/
def notConfiguredError : OpError :=
  .clientError "MySQL connection not configured" (-1)

/-- Observable connection/transaction events, used to state the
resource-handling guarantees (acquire/release pairing, autocommit
restoration, commit vs rollback). -/
inductive DbEvent where
  | acquire
  | setAutocommit (enabled : Bool)
  | commit
  | rollback
  | release
  deriving Repr, DecidableEq

/-- Event trace of a successful `_execute_transaction` run: acquire the
connection, disable autocommit, commit, restore autocommit, release. -/
def okTrace : List DbEvent :=
  [.acquire, .setAutocommit false, .commit, .setAutocommit true, .release]

/-- Event trace of a failed `_execute_transaction` run: acquire, disable
autocommit, roll back, restore autocommit, release. -/
def errTrace : List DbEvent :=
  [.acquire, .setAutocommit false, .rollback, .setAutocommit true, .release]

/-- Model of `MySQLClient._execute_transaction` (mysql_client.py lines 92-108).
`_get_connection` raises `notConfiguredError` before the pool is touched when
the settings are incomplete (no event is emitted).  Otherwise the body runs
with autocommit disabled; on success the working state is committed, on any
exception the working state is discarded (rollback) and the same exception is
re-raised; the `finally` blocks restore autocommit and release the connection
on both paths. -/
def execute_transaction (st : AdminSettings)
    (body : DB → Except OpError α × DB) (db : DB) :
    Except OpError α × DB × List DbEvent :=
  if st.is_mysql_configured then
    match body db with
    | (.ok a, working) => (.ok a, working, okTrace)
    | (.error e, _working) => (.error e, db, errTrace)
  else
    (.error notConfiguredError, db, [])

/-- Connection scope of the non-transactional read operations
(`_get_connection` / `try ... finally _release_connection`): the
configuration check happens before the pool acquire; the read body never
mutates the database. -/
def withConnection (st : AdminSettings) (body : DB → α) (db : DB) :
    Except OpError α × DB × List DbEvent :=
  if st.is_mysql_configured then
    (.ok (body db), db, [.acquire, .release])
  else
    (.error notConfiguredError, db, [])

/-- A rows-affected report, mirroring the Python `result` dict: an ordered
association list from category name to count. -/
abbrev Report := List (String × Nat)

/-- Assignment `result[k] = v` to an existing key of the report dict
(every assignment in the source writes a key the dict was initialised with,
so insertion order is preserved). -/
def setk (r : Report) (k : String) (v : Nat) : Report :=
  r.map (fun p => if p.1 = k then (k, v) else p)

/-- Model of `DELETE FROM t WHERE p`: returns the surviving rows and the rowcount. -/
def deleteWhere (rows : List ρ) (p : ρ → Bool) : List ρ × Nat :=
  (rows.filter (fun r => !(p r)), rows.countP p)

/-- Model of `SELECT id FROM knowledgebase WHERE tenant_id IN (user_ids)`
(mysql_client.py line 509). -/
def ownedKbIds (rows : List KnowledgebaseRow) (user_ids : List String) : List String :=
  (rows.filter (fun kb => user_ids.contains kb.tenant_id)).map (·.id)

/-- Model of `SELECT id FROM document WHERE kb_id IN (kb_ids)` (lines 516, 867). -/
def docIdsOfKbs (rows : List DocumentRow) (kb_ids : List String) : List String :=
  (rows.filter (fun d => kb_ids.contains d.kb_id)).map (·.id)

/-- Model of `SELECT file_id FROM file2document WHERE document_id IN (doc_ids)`
followed by the Python truthiness filter
`[row[0] for row in file_rows if row[0]]`, which drops NULL and empty
file ids (lines 526-528, 877-879, 981-983). -/
def collectFileIds (rows : List File2DocumentRow) (doc_ids : List String) :
    List String :=
  ((rows.filter (fun j => doc_ids.contains j.document_id)).map (·.file_id)).filterMap
    (fun o => match o with
      | some s => if s == "" then none else some s
      | none => none)

/-- Model of `SELECT id FROM user_canvas WHERE user_id IN (user_ids)` (line 550). -/
def ownedAgentIds (rows : List UserCanvasRow) (user_ids : List String) : List String :=
  (rows.filter (fun a => user_ids.contains a.user_id)).map (·.id)

/-- Transaction body of `MySQLClient.delete_users` (lines 501-571),
statement by statement in source order.  Each table is read before the step
that mutates it, so the selects on the working state coincide with selects on
the state at transaction start. -/
def delete_users_body (user_ids : List String) (db : DB) : Report × DB :=
  let result : Report :=
    [("users", 0), ("tenants", 0), ("user_tenants", 0),
     ("datasets", 0), ("documents", 0), ("tasks", 0), ("files", 0), ("file_relations", 0),
     ("chats", 0), ("conversations", 0), ("agents", 0), ("agent_versions", 0)]
  let kb_ids := ownedKbIds db.knowledgebase user_ids
  let (db, result) :=
    if kb_ids.isEmpty then (db, result)
    else
      let doc_ids := docIdsOfKbs db.document kb_ids
      let (db, result) :=
        if doc_ids.isEmpty then (db, result)
        else
          let (task', n_tasks) := deleteWhere db.task (fun t => doc_ids.contains t.doc_id)
          let db := { db with task := task' }
          let result := setk result "tasks" n_tasks
          let file_ids := collectFileIds db.file2document doc_ids
          let (f2d', n_rel) := deleteWhere db.file2document (fun j => doc_ids.contains j.document_id)
          let db := { db with file2document := f2d' }
          let result := setk result "file_relations" n_rel
          if file_ids.isEmpty then (db, result)
          else
            let (file', n_files) :=
              deleteWhere db.file (fun f => file_ids.contains f.id && f.source_type == "knowledgebase")
            ({ db with file := file' }, setk result "files" n_files)
      let (doc', n_docs) := deleteWhere db.document (fun d => kb_ids.contains d.kb_id)
      let db := { db with document := doc' }
      let result := setk result "documents" n_docs
      let (kb', n_kbs) := deleteWhere db.knowledgebase (fun kb => kb_ids.contains kb.id)
      ({ db with knowledgebase := kb' }, setk result "datasets" n_kbs)
  let (conv', n_conv) :=
    deleteWhere db.conversation
      (fun c => db.dialog.any (fun d => d.id == c.dialog_id && user_ids.contains d.tenant_id))
  let db := { db with conversation := conv' }
  let result := setk result "conversations" n_conv
  let (dlg', n_dlg) := deleteWhere db.dialog (fun d => user_ids.contains d.tenant_id)
  let db := { db with dialog := dlg' }
  let result := setk result "chats" n_dlg
  let agent_ids := ownedAgentIds db.user_canvas user_ids
  let (db, result) :=
    if agent_ids.isEmpty then (db, result)
    else
      let (ver', n_ver) :=
        deleteWhere db.user_canvas_version (fun v => agent_ids.contains v.user_canvas_id)
      ({ db with user_canvas_version := ver' }, setk result "agent_versions" n_ver)
  let (uc', n_uc) := deleteWhere db.user_canvas (fun a => user_ids.contains a.user_id)
  let db := { db with user_canvas := uc' }
  let result := setk result "agents" n_uc
  let (ut', n_ut) :=
    deleteWhere db.user_tenant
      (fun ut => user_ids.contains ut.user_id || user_ids.contains ut.tenant_id)
  let db := { db with user_tenant := ut' }
  let result := setk result "user_tenants" n_ut
  let (ten', n_ten) := deleteWhere db.tenant (fun t => user_ids.contains t.id)
  let db := { db with tenant := ten' }
  let result := setk result "tenants" n_ten
  let (usr', n_usr) := deleteWhere db.user (fun u => user_ids.contains u.id)
  let db := { db with user := usr' }
  let result := setk result "users" n_usr
  (result, db)

/-- The body of `delete_users` lifted into the transaction wrapper's shape
(the Python body only raises via the injected driver faults, which the
wrapper theorems quantify over separately). -/
def usersTxBody (user_ids : List String) (db : DB) : Except OpError Report × DB :=
  let (r, db') := delete_users_body user_ids db
  (.ok r, db')

/-- Model of `MySQLClient.delete_users` (lines 496-573): an empty id list
short-circuits to `{"users": 0}` before any connection is acquired;
otherwise the body runs under `_execute_transaction`. -/
def delete_users (user_ids : List String) (st : AdminSettings) (db : DB) :
    Except OpError Report × DB × List DbEvent :=
  if user_ids.isEmpty then (.ok [("users", 0)], db, [])
  else execute_transaction st (usersTxBody user_ids) db

/-- Transaction body of `MySQLClient.delete_datasets` (lines 863-895).
Documents are deleted by their collected ids here (line 889), unlike
`delete_users`, which deletes them by `kb_id`. -/
def delete_datasets_body (dataset_ids : List String) (db : DB) : Report × DB :=
  let result : Report :=
    [("datasets", 0), ("documents", 0), ("tasks", 0), ("files", 0), ("file_relations", 0)]
  let doc_ids := docIdsOfKbs db.document dataset_ids
  let (db, result) :=
    if doc_ids.isEmpty then (db, result)
    else
      let (task', n_tasks) := deleteWhere db.task (fun t => doc_ids.contains t.doc_id)
      let db := { db with task := task' }
      let result := setk result "tasks" n_tasks
      let file_ids := collectFileIds db.file2document doc_ids
      let (f2d', n_rel) := deleteWhere db.file2document (fun j => doc_ids.contains j.document_id)
      let db := { db with file2document := f2d' }
      let result := setk result "file_relations" n_rel
      let (db, result) :=
        if file_ids.isEmpty then (db, result)
        else
          let (file', n_files) :=
            deleteWhere db.file (fun f => file_ids.contains f.id && f.source_type == "knowledgebase")
          ({ db with file := file' }, setk result "files" n_files)
      let (doc', n_docs) := deleteWhere db.document (fun d => doc_ids.contains d.id)
      ({ db with document := doc' }, setk result "documents" n_docs)
  let (kb', n_kbs) := deleteWhere db.knowledgebase (fun kb => dataset_ids.contains kb.id)
  let db := { db with knowledgebase := kb' }
  (setk result "datasets" n_kbs, db)

/-- Model of `delete_datasets` body lifted into the transaction wrapper's shape. -/
def datasetsTxBody (dataset_ids : List String) (db : DB) : Except OpError Report × DB :=
  let (r, db') := delete_datasets_body dataset_ids db
  (.ok r, db')

/-- Model of `MySQLClient.delete_datasets` (lines 858-897). -/
def delete_datasets (dataset_ids : List String) (st : AdminSettings) (db : DB) :
    Except OpError Report × DB × List DbEvent :=
  if dataset_ids.isEmpty then
    (.ok [("datasets", 0), ("documents", 0), ("tasks", 0), ("files", 0), ("file_relations", 0)],
     db, [])
  else execute_transaction st (datasetsTxBody dataset_ids) db

/-- Transaction body of `MySQLClient.delete_chats` (lines 931-941). -/
def delete_chats_body (chat_ids : List String) (db : DB) : Report × DB :=
  let result : Report := [("chats", 0), ("conversations", 0)]
  let (conv', n_conv) := deleteWhere db.conversation (fun c => chat_ids.contains c.dialog_id)
  let db := { db with conversation := conv' }
  let result := setk result "conversations" n_conv
  let (dlg', n_dlg) := deleteWhere db.dialog (fun d => chat_ids.contains d.id)
  (setk result "chats" n_dlg, { db with dialog := dlg' })

/-- Model of `delete_chats` body lifted into the transaction wrapper's shape. -/
def chatsTxBody (chat_ids : List String) (db : DB) : Except OpError Report × DB :=
  let (r, db') := delete_chats_body chat_ids db
  (.ok r, db')

/-- Model of `MySQLClient.delete_chats` (lines 926-943). -/
def delete_chats (chat_ids : List String) (st : AdminSettings) (db : DB) :
    Except OpError Report × DB × List DbEvent :=
  if chat_ids.isEmpty then (.ok [("chats", 0), ("conversations", 0)], db, [])
  else execute_transaction st (chatsTxBody chat_ids) db

/-- Transaction body of `MySQLClient.delete_agents` (lines 908-918). -/
def delete_agents_body (agent_ids : List String) (db : DB) : Report × DB :=
  let result : Report := [("agents", 0), ("versions", 0)]
  let (ver', n_ver) :=
    deleteWhere db.user_canvas_version (fun v => agent_ids.contains v.user_canvas_id)
  let db := { db with user_canvas_version := ver' }
  let result := setk result "versions" n_ver
  let (uc', n_uc) := deleteWhere db.user_canvas (fun a => agent_ids.contains a.id)
  (setk result "agents" n_uc, { db with user_canvas := uc' })

/-- Model of `delete_agents` body lifted into the transaction wrapper's shape. -/
def agentsTxBody (agent_ids : List String) (db : DB) : Except OpError Report × DB :=
  let (r, db') := delete_agents_body agent_ids db
  (.ok r, db')

/-- Model of `MySQLClient.delete_agents` (lines 903-920). -/
def delete_agents (agent_ids : List String) (st : AdminSettings) (db : DB) :
    Except OpError Report × DB × List DbEvent :=
  if agent_ids.isEmpty then (.ok [("agents", 0), ("versions", 0)], db, [])
  else execute_transaction st (agentsTxBody agent_ids) db

/-- The `knowledgebase` counter update of `delete_documents` (lines 997-1004):
`doc_num = GREATEST(0, doc_num - n)`, and likewise for `chunk_num` and
`token_num`. -/
def clampCounters (kb : KnowledgebaseRow) (n_docs : Nat) (chunks tokens : Int) :
    KnowledgebaseRow :=
  { kb with
    doc_num := max 0 (kb.doc_num - (n_docs : Int)),
    chunk_num := max 0 (kb.chunk_num - chunks),
    token_num := max 0 (kb.token_num - tokens) }

/-- Transaction body of `MySQLClient.delete_documents` (lines 966-1006).
The chunk/token sums and the document delete are scoped to
`kb_id = dataset_id AND id IN (document_ids)`; the task and join-table
deletes are scoped only to `document_ids`. -/
def delete_documents_body (dataset_id : String) (document_ids : List String)
    (db : DB) : Report × DB :=
  let result : Report :=
    [("documents", 0), ("tasks", 0), ("files", 0), ("file_relations", 0)]
  let targets := db.document.filter (fun d => d.kb_id == dataset_id && document_ids.contains d.id)
  let total_chunks := (targets.map (·.chunk_num)).sum
  let total_tokens := (targets.map (·.token_num)).sum
  let (task', n_tasks) := deleteWhere db.task (fun t => document_ids.contains t.doc_id)
  let db := { db with task := task' }
  let result := setk result "tasks" n_tasks
  let file_ids := collectFileIds db.file2document document_ids
  let (f2d', n_rel) := deleteWhere db.file2document (fun j => document_ids.contains j.document_id)
  let db := { db with file2document := f2d' }
  let result := setk result "file_relations" n_rel
  let (db, result) :=
    if file_ids.isEmpty then (db, result)
    else
      let (file', n_files) :=
        deleteWhere db.file (fun f => file_ids.contains f.id && f.source_type == "knowledgebase")
      ({ db with file := file' }, setk result "files" n_files)
  let (doc', n_docs) :=
    deleteWhere db.document (fun d => d.kb_id == dataset_id && document_ids.contains d.id)
  let db := { db with document := doc' }
  let result := setk result "documents" n_docs
  let db :=
    if 0 < n_docs then
      { db with
        knowledgebase := db.knowledgebase.map (fun kb =>
          if kb.id == dataset_id then clampCounters kb n_docs total_chunks total_tokens else kb) }
    else db
  (result, db)

/-- Model of `delete_documents` body lifted into the transaction wrapper's shape. -/
def documentsTxBody (dataset_id : String) (document_ids : List String) (db : DB) :
    Except OpError Report × DB :=
  let (r, db') := delete_documents_body dataset_id document_ids db
  (.ok r, db')

/-- Model of `MySQLClient.delete_documents` (lines 961-1008). -/
def delete_documents (dataset_id : String) (document_ids : List String)
    (st : AdminSettings) (db : DB) :
    Except OpError Report × DB × List DbEvent :=
  if document_ids.isEmpty then
    (.ok [("documents", 0), ("tasks", 0), ("files", 0), ("file_relations", 0)], db, [])
  else execute_transaction st (documentsTxBody dataset_id document_ids) db

/-- Python `str.isdigit()` on the status strings: nonempty and all digits. -/
def pyIsDigit (s : String) : Bool :=
  !s.data.isEmpty && s.data.all Char.isDigit

/-- The `status_to_num` mapping of `list_parsing_tasks` / `list_documents`
(mysql_client.py lines 1025, 1099). -/
def statusToNum : List (String × Int) :=
  [("UNSTART", 0), ("RUNNING", 1), ("CANCEL", 2), ("DONE", 3), ("FAIL", 4)]

/-- The run-status normalisation
`status_to_num.get(status, int(status) if status.isdigit() else 0)`
(lines 1028, 1101): a recognised enum name maps to its code, a digit string
is used as the number it spells, and any other value silently becomes `0`
(UNSTART). -/
def parseRunStatus (status : String) : Int :=
  match statusToNum.lookup status with
  | some n => n
  | none => if pyIsDigit status then ((status.toNat?).getD 0 : Nat) else 0

/-- SQL `col LIKE '%pat%'`: `pat` occurs as a substring. -/
def likeMatch (pat : String) (s : String) : Bool :=
  decide (pat.toList <:+: s.toList)

/-- The WHERE clause of `list_parsing_tasks` (lines 1093-1118) applied to one
`document` row, with the two `LEFT JOIN`s resolved by lookup: a condition on
a joined column is false when the join produced no row (SQL NULL semantics).
A filter argument is applied only when it is present and non-empty
(Python truthiness of the `status`/`dataset_name`/`doc_name`/`owner`
parameters). -/
def parsingTaskPred (db : DB) (status dataset_name doc_name owner : Option String)
    (d : DocumentRow) : Bool :=
  let kbOpt := db.knowledgebase.find? (fun kb => kb.id == d.kb_id)
  let userOpt := kbOpt.bind (fun kb => db.user.find? (fun u => u.id == kb.tenant_id))
  (match status with
   | some s => s == "" || d.run == parseRunStatus s
   | none => true) &&
  (match dataset_name with
   | some dn => dn == "" ||
      (match kbOpt with
       | some kb => likeMatch dn kb.name
       | none => false)
   | none => true) &&
  (match doc_name with
   | some dnm => dnm == "" || likeMatch dnm d.name
   | none => true) &&
  (match owner with
   | some ow => ow == "" ||
      (match userOpt with
       | some u => likeMatch ow u.email || likeMatch ow u.nickname
       | none => false)
   | none => true)

/-- Model of `MySQLClient.list_parsing_tasks` (lines 1087-1203), modelled through its
filtering/count path: the function builds the WHERE clause from the four
optional filters without any validation, runs the `COUNT(*)` query, and
returns the matching rows.  The claims this development settles do not touch
the page query's ORDER BY/LIMIT presentation or the queue-position
decoration (lines 1129-1196), so the model returns the total together with
the ids of all matching documents. -/
def list_parsing_tasks (st : AdminSettings)
    (status dataset_name doc_name owner : Option String) (db : DB) :
    Except OpError (Nat × List String) × DB × List DbEvent :=
  withConnection st
    (fun db =>
      let matching := db.document.filter (parsingTaskPred db status dataset_name doc_name owner)
      (matching.length, matching.map (·.id)))
    db

/-- JSON envelope plus HTTP status of a route response. -/
structure HttpResponse where
  code : Int
  message : String
  http_status : Nat
  deleted : Option Nat
  deriving Repr, DecidableEq

/-- Message text of an error, as `str(e)` renders it in the route layer. -/
def OpError.text : OpError → String
  | .clientError m _ => m
  | .databaseError m => m

/-- The `batch_delete_users` route handler (`src/api/apps/user_app.py`
lines 204-245): reject when MySQL is unconfigured, then reject an absent or
empty `ids` array with a 400 validation response before calling the client,
otherwise call `mysql_client.delete_users` and wrap its outcome. -/
def batch_delete_users (st : AdminSettings) (ids : Option (List String)) (db : DB) :
    HttpResponse × DB × List DbEvent :=
  if !st.is_mysql_configured then
    ({ code := -1, message := "MySQL not configured", http_status := 400, deleted := none },
     db, [])
  else
    let idList := ids.getD []
    if idList.isEmpty then
      ({ code := -1, message := "ids is required", http_status := 400, deleted := none },
       db, [])
    else
      match delete_users idList st db with
      | (.ok r, db', tr) =>
        ({ code := 0, message := "success", http_status := 200, deleted := r.lookup "users" },
         db', tr)
      | (.error e, db', tr) =>
        ({ code := -1, message := e.text, http_status := 500, deleted := none }, db', tr)

/-! ### Closed-form characterisations of the transaction bodies

The following definitions restate each body's net effect as a direct function
of the state at transaction start; the lemmas prove them equal to the bodies.
They exist so that the claim theorems can be stated and proved without
re-walking the step sequence. -/

/-- Net database effect of `delete_agents_body`. -/
def agentsFinalDB (agent_ids : List String) (db : DB) : DB :=
  { db with
    user_canvas_version :=
      db.user_canvas_version.filter (fun v => !agent_ids.contains v.user_canvas_id),
    user_canvas := db.user_canvas.filter (fun a => !agent_ids.contains a.id) }

/-- Report of `delete_agents_body`. -/
def agentsReport (agent_ids : List String) (db : DB) : Report :=
  [("agents", db.user_canvas.countP (fun a => agent_ids.contains a.id)),
   ("versions", db.user_canvas_version.countP (fun v => agent_ids.contains v.user_canvas_id))]

theorem delete_agents_body_eq (agent_ids : List String) (db : DB) :
    delete_agents_body agent_ids db = (agentsReport agent_ids db, agentsFinalDB agent_ids db) := by
  simp [delete_agents_body, agentsReport, agentsFinalDB, deleteWhere, setk]

/-- Net database effect of `delete_chats_body`. -/
def chatsFinalDB (chat_ids : List String) (db : DB) : DB :=
  { db with
    conversation := db.conversation.filter (fun c => !chat_ids.contains c.dialog_id),
    dialog := db.dialog.filter (fun d => !chat_ids.contains d.id) }

/-- Report of `delete_chats_body`. -/
def chatsReport (chat_ids : List String) (db : DB) : Report :=
  [("chats", db.dialog.countP (fun d => chat_ids.contains d.id)),
   ("conversations", db.conversation.countP (fun c => chat_ids.contains c.dialog_id))]

theorem delete_chats_body_eq (chat_ids : List String) (db : DB) :
    delete_chats_body chat_ids db = (chatsReport chat_ids db, chatsFinalDB chat_ids db) := by
  simp [delete_chats_body, chatsReport, chatsFinalDB, deleteWhere, setk]

@[simp] theorem ownedKbIds_nil (rows : List KnowledgebaseRow) : ownedKbIds rows [] = [] := by
  simp [ownedKbIds]

@[simp] theorem docIdsOfKbs_nil (rows : List DocumentRow) : docIdsOfKbs rows [] = [] := by
  simp [docIdsOfKbs]

@[simp] theorem collectFileIds_nil (rows : List File2DocumentRow) :
    collectFileIds rows [] = [] := by
  simp [collectFileIds]

@[simp] theorem ownedAgentIds_nil (rows : List UserCanvasRow) : ownedAgentIds rows [] = [] := by
  simp [ownedAgentIds]

/-- Net database effect of `delete_datasets_body`. -/
def datasetsFinalDB (dataset_ids : List String) (db : DB) : DB :=
  let doc_ids := docIdsOfKbs db.document dataset_ids
  let file_ids := collectFileIds db.file2document doc_ids
  { db with
    task := db.task.filter (fun t => !doc_ids.contains t.doc_id),
    file2document := db.file2document.filter (fun j => !doc_ids.contains j.document_id),
    file := db.file.filter (fun f => !(file_ids.contains f.id && f.source_type == "knowledgebase")),
    document := db.document.filter (fun d => !doc_ids.contains d.id),
    knowledgebase := db.knowledgebase.filter (fun kb => !dataset_ids.contains kb.id) }

/-- Report of `delete_datasets_body`. -/
def datasetsReport (dataset_ids : List String) (db : DB) : Report :=
  let doc_ids := docIdsOfKbs db.document dataset_ids
  let file_ids := collectFileIds db.file2document doc_ids
  [("datasets", db.knowledgebase.countP (fun kb => dataset_ids.contains kb.id)),
   ("documents", db.document.countP (fun d => doc_ids.contains d.id)),
   ("tasks", db.task.countP (fun t => doc_ids.contains t.doc_id)),
   ("files", db.file.countP (fun f => file_ids.contains f.id && f.source_type == "knowledgebase")),
   ("file_relations", db.file2document.countP (fun j => doc_ids.contains j.document_id))]

theorem delete_datasets_body_eq (dataset_ids : List String) (db : DB) :
    delete_datasets_body dataset_ids db =
      (datasetsReport dataset_ids db, datasetsFinalDB dataset_ids db) := by
  unfold delete_datasets_body datasetsReport datasetsFinalDB
  cases hdoc : (docIdsOfKbs db.document dataset_ids).isEmpty
  · cases hfile : (collectFileIds db.file2document (docIdsOfKbs db.document dataset_ids)).isEmpty
    · simp [hdoc, hfile, deleteWhere, setk]
    · have h2 : collectFileIds db.file2document (docIdsOfKbs db.document dataset_ids) = [] :=
        List.isEmpty_iff.mp hfile
      simp [hdoc, hfile, h2, deleteWhere, setk]
  · have h1 : docIdsOfKbs db.document dataset_ids = [] := List.isEmpty_iff.mp hdoc
    simp [hdoc, h1, deleteWhere, setk]

/-- Net database effect of `delete_documents_body`. -/
def documentsFinalDB (dataset_id : String) (document_ids : List String) (db : DB) : DB :=
  let targets := db.document.filter (fun d => d.kb_id == dataset_id && document_ids.contains d.id)
  let file_ids := collectFileIds db.file2document document_ids
  let n_docs := db.document.countP (fun d => d.kb_id == dataset_id && document_ids.contains d.id)
  { db with
    task := db.task.filter (fun t => !document_ids.contains t.doc_id),
    file2document := db.file2document.filter (fun j => !document_ids.contains j.document_id),
    file := db.file.filter (fun f => !(file_ids.contains f.id && f.source_type == "knowledgebase")),
    document := db.document.filter (fun d => !(d.kb_id == dataset_id && document_ids.contains d.id)),
    knowledgebase :=
      if 0 < n_docs then
        db.knowledgebase.map (fun kb =>
          if kb.id == dataset_id then
            clampCounters kb n_docs ((targets.map (·.chunk_num)).sum) ((targets.map (·.token_num)).sum)
          else kb)
      else db.knowledgebase }

/-- Report of `delete_documents_body`. -/
def documentsReport (dataset_id : String) (document_ids : List String) (db : DB) : Report :=
  let file_ids := collectFileIds db.file2document document_ids
  [("documents", db.document.countP (fun d => d.kb_id == dataset_id && document_ids.contains d.id)),
   ("tasks", db.task.countP (fun t => document_ids.contains t.doc_id)),
   ("files", db.file.countP (fun f => file_ids.contains f.id && f.source_type == "knowledgebase")),
   ("file_relations", db.file2document.countP (fun j => document_ids.contains j.document_id))]

theorem delete_documents_body_eq (dataset_id : String) (document_ids : List String) (db : DB) :
    delete_documents_body dataset_id document_ids db =
      (documentsReport dataset_id document_ids db, documentsFinalDB dataset_id document_ids db) := by
  unfold delete_documents_body documentsReport documentsFinalDB
  cases hfile : (collectFileIds db.file2document document_ids).isEmpty
  · simp [hfile, deleteWhere, setk]
    split <;> rfl
  · have h2 : collectFileIds db.file2document document_ids = [] := List.isEmpty_iff.mp hfile
    simp [hfile, h2, deleteWhere, setk]
    split <;> rfl

/-- Net database effect of `delete_users_body`: every id set is collected
from the state at transaction start (each table is read before the step that
mutates it). -/
def usersFinalDB (user_ids : List String) (db : DB) : DB :=
  let kb_ids := ownedKbIds db.knowledgebase user_ids
  let doc_ids := docIdsOfKbs db.document kb_ids
  let file_ids := collectFileIds db.file2document doc_ids
  let agent_ids := ownedAgentIds db.user_canvas user_ids
  { user := db.user.filter (fun u => !user_ids.contains u.id),
    tenant := db.tenant.filter (fun t => !user_ids.contains t.id),
    user_tenant := db.user_tenant.filter
      (fun ut => !(user_ids.contains ut.user_id || user_ids.contains ut.tenant_id)),
    knowledgebase := db.knowledgebase.filter (fun kb => !kb_ids.contains kb.id),
    document := db.document.filter (fun d => !kb_ids.contains d.kb_id),
    task := db.task.filter (fun t => !doc_ids.contains t.doc_id),
    file := db.file.filter (fun f => !(file_ids.contains f.id && f.source_type == "knowledgebase")),
    file2document := db.file2document.filter (fun j => !doc_ids.contains j.document_id),
    dialog := db.dialog.filter (fun d => !user_ids.contains d.tenant_id),
    conversation := db.conversation.filter
      (fun c => !db.dialog.any (fun d => d.id == c.dialog_id && user_ids.contains d.tenant_id)),
    user_canvas := db.user_canvas.filter (fun a => !user_ids.contains a.user_id),
    user_canvas_version := db.user_canvas_version.filter
      (fun v => !agent_ids.contains v.user_canvas_id) }

/-- Report of `delete_users_body`, in the insertion order of the Python
`result` dict. -/
def usersReport (user_ids : List String) (db : DB) : Report :=
  let kb_ids := ownedKbIds db.knowledgebase user_ids
  let doc_ids := docIdsOfKbs db.document kb_ids
  let file_ids := collectFileIds db.file2document doc_ids
  let agent_ids := ownedAgentIds db.user_canvas user_ids
  [("users", db.user.countP (fun u => user_ids.contains u.id)),
   ("tenants", db.tenant.countP (fun t => user_ids.contains t.id)),
   ("user_tenants", db.user_tenant.countP
      (fun ut => user_ids.contains ut.user_id || user_ids.contains ut.tenant_id)),
   ("datasets", db.knowledgebase.countP (fun kb => kb_ids.contains kb.id)),
   ("documents", db.document.countP (fun d => kb_ids.contains d.kb_id)),
   ("tasks", db.task.countP (fun t => doc_ids.contains t.doc_id)),
   ("files", db.file.countP (fun f => file_ids.contains f.id && f.source_type == "knowledgebase")),
   ("file_relations", db.file2document.countP (fun j => doc_ids.contains j.document_id)),
   ("chats", db.dialog.countP (fun d => user_ids.contains d.tenant_id)),
   ("conversations", db.conversation.countP
      (fun c => db.dialog.any (fun d => d.id == c.dialog_id && user_ids.contains d.tenant_id))),
   ("agents", db.user_canvas.countP (fun a => user_ids.contains a.user_id)),
   ("agent_versions", db.user_canvas_version.countP
      (fun v => agent_ids.contains v.user_canvas_id))]

theorem delete_users_body_eq (user_ids : List String) (db : DB) :
    delete_users_body user_ids db = (usersReport user_ids db, usersFinalDB user_ids db) := by
  unfold delete_users_body usersReport usersFinalDB
  cases hkb : (ownedKbIds db.knowledgebase user_ids).isEmpty
  case true =>
    have h1 : ownedKbIds db.knowledgebase user_ids = [] := List.isEmpty_iff.mp hkb
    cases hag : (ownedAgentIds db.user_canvas user_ids).isEmpty
    · simp [hkb, h1, hag, deleteWhere, setk]
    · have h4 : ownedAgentIds db.user_canvas user_ids = [] := List.isEmpty_iff.mp hag
      simp [hkb, h1, hag, h4, deleteWhere, setk]
  case false =>
    cases hdoc : (docIdsOfKbs db.document (ownedKbIds db.knowledgebase user_ids)).isEmpty
    case true =>
      have h2 : docIdsOfKbs db.document (ownedKbIds db.knowledgebase user_ids) = [] :=
        List.isEmpty_iff.mp hdoc
      cases hag : (ownedAgentIds db.user_canvas user_ids).isEmpty
      · simp [hkb, hdoc, h2, hag, deleteWhere, setk]
      · have h4 : ownedAgentIds db.user_canvas user_ids = [] := List.isEmpty_iff.mp hag
        simp [hkb, hdoc, h2, hag, h4, deleteWhere, setk]
    case false =>
      cases hfile : (collectFileIds db.file2document
          (docIdsOfKbs db.document (ownedKbIds db.knowledgebase user_ids))).isEmpty
      case true =>
        have h3 : collectFileIds db.file2document
            (docIdsOfKbs db.document (ownedKbIds db.knowledgebase user_ids)) = [] :=
          List.isEmpty_iff.mp hfile
        cases hag : (ownedAgentIds db.user_canvas user_ids).isEmpty
        · simp [hkb, hdoc, hfile, h3, hag, deleteWhere, setk]
        · have h4 : ownedAgentIds db.user_canvas user_ids = [] := List.isEmpty_iff.mp hag
          simp [hkb, hdoc, hfile, h3, hag, h4, deleteWhere, setk]
      case false =>
        cases hag : (ownedAgentIds db.user_canvas user_ids).isEmpty
        · simp [hkb, hdoc, hfile, hag, deleteWhere, setk]
        · have h4 : ownedAgentIds db.user_canvas user_ids = [] := List.isEmpty_iff.mp hag
          simp [hkb, hdoc, hfile, hag, h4, deleteWhere, setk]

/-! ### Success-path corollaries and concrete sample data -/

theorem delete_users_ok (user_ids : List String) (st : AdminSettings) (db : DB)
    (hne : user_ids ≠ []) (hc : st.is_mysql_configured = true) :
    delete_users user_ids st db =
      (.ok (usersReport user_ids db), usersFinalDB user_ids db, okTrace) := by
  have h0 : user_ids.isEmpty = false := by simpa [List.isEmpty_iff] using hne
  simp [delete_users, h0, execute_transaction, hc, usersTxBody, delete_users_body_eq]

theorem delete_datasets_ok (dataset_ids : List String) (st : AdminSettings) (db : DB)
    (hne : dataset_ids ≠ []) (hc : st.is_mysql_configured = true) :
    delete_datasets dataset_ids st db =
      (.ok (datasetsReport dataset_ids db), datasetsFinalDB dataset_ids db, okTrace) := by
  have h0 : dataset_ids.isEmpty = false := by simpa [List.isEmpty_iff] using hne
  simp [delete_datasets, h0, execute_transaction, hc, datasetsTxBody, delete_datasets_body_eq]

theorem delete_chats_ok (chat_ids : List String) (st : AdminSettings) (db : DB)
    (hne : chat_ids ≠ []) (hc : st.is_mysql_configured = true) :
    delete_chats chat_ids st db =
      (.ok (chatsReport chat_ids db), chatsFinalDB chat_ids db, okTrace) := by
  have h0 : chat_ids.isEmpty = false := by simpa [List.isEmpty_iff] using hne
  simp [delete_chats, h0, execute_transaction, hc, chatsTxBody, delete_chats_body_eq]

theorem delete_agents_ok (agent_ids : List String) (st : AdminSettings) (db : DB)
    (hne : agent_ids ≠ []) (hc : st.is_mysql_configured = true) :
    delete_agents agent_ids st db =
      (.ok (agentsReport agent_ids db), agentsFinalDB agent_ids db, okTrace) := by
  have h0 : agent_ids.isEmpty = false := by simpa [List.isEmpty_iff] using hne
  simp [delete_agents, h0, execute_transaction, hc, agentsTxBody, delete_agents_body_eq]

theorem delete_documents_ok (dataset_id : String) (document_ids : List String)
    (st : AdminSettings) (db : DB)
    (hne : document_ids ≠ []) (hc : st.is_mysql_configured = true) :
    delete_documents dataset_id document_ids st db =
      (.ok (documentsReport dataset_id document_ids db),
       documentsFinalDB dataset_id document_ids db, okTrace) := by
  have h0 : document_ids.isEmpty = false := by simpa [List.isEmpty_iff] using hne
  simp [delete_documents, h0, execute_transaction, hc, documentsTxBody, delete_documents_body_eq]

theorem config_of_users_ok {ids : List String} {st : AdminSettings} {db : DB} {rep : Report}
    (hne : ids ≠ []) (h : (delete_users ids st db).1 = .ok rep) :
    st.is_mysql_configured = true := by
  have h0 : ids.isEmpty = false := by simpa [List.isEmpty_iff] using hne
  cases hc : st.is_mysql_configured
  · simp [delete_users, h0, execute_transaction, hc] at h
  · rfl

theorem config_of_datasets_ok {ids : List String} {st : AdminSettings} {db : DB} {rep : Report}
    (hne : ids ≠ []) (h : (delete_datasets ids st db).1 = .ok rep) :
    st.is_mysql_configured = true := by
  have h0 : ids.isEmpty = false := by simpa [List.isEmpty_iff] using hne
  cases hc : st.is_mysql_configured
  · simp [delete_datasets, h0, execute_transaction, hc] at h
  · rfl

theorem config_of_chats_ok {ids : List String} {st : AdminSettings} {db : DB} {rep : Report}
    (hne : ids ≠ []) (h : (delete_chats ids st db).1 = .ok rep) :
    st.is_mysql_configured = true := by
  have h0 : ids.isEmpty = false := by simpa [List.isEmpty_iff] using hne
  cases hc : st.is_mysql_configured
  · simp [delete_chats, h0, execute_transaction, hc] at h
  · rfl

theorem config_of_agents_ok {ids : List String} {st : AdminSettings} {db : DB} {rep : Report}
    (hne : ids ≠ []) (h : (delete_agents ids st db).1 = .ok rep) :
    st.is_mysql_configured = true := by
  have h0 : ids.isEmpty = false := by simpa [List.isEmpty_iff] using hne
  cases hc : st.is_mysql_configured
  · simp [delete_agents, h0, execute_transaction, hc] at h
  · rfl

theorem config_of_documents_ok {ds : String} {ids : List String} {st : AdminSettings}
    {db : DB} {rep : Report}
    (hne : ids ≠ []) (h : (delete_documents ds ids st db).1 = .ok rep) :
    st.is_mysql_configured = true := by
  have h0 : ids.isEmpty = false := by simpa [List.isEmpty_iff] using hne
  cases hc : st.is_mysql_configured
  · simp [delete_documents, h0, execute_transaction, hc] at h
  · rfl

/-- A fully-populated settings record (all three required parameters
present). -/
def stOK : AdminSettings :=
  { mysql_host := "localhost", mysql_port := 3306, mysql_database := "ragflow",
    mysql_user := "root", mysql_password := "secret" }

/-- Settings with the required parameters missing (empty host, database and
user, as when the YAML keys are absent). -/
def stBad : AdminSettings :=
  { mysql_host := "", mysql_port := 3306, mysql_database := "",
    mysql_user := "", mysql_password := "" }

/-- The empty store. -/
def emptyDB : DB :=
  { user := [], tenant := [], user_tenant := [], knowledgebase := [], document := [],
    task := [], file := [], file2document := [], dialog := [], conversation := [],
    user_canvas := [], user_canvas_version := [] }

/-- Sample store: one user `u1` owning a dataset with a document, task, file,
join row, a chat with one conversation, and an agent with one version. -/
def dbU : DB :=
  { user := [{ id := "u1", email := "u1@x", nickname := "U One" }],
    tenant := [{ id := "u1" }],
    user_tenant := [{ id := "ut1", user_id := "u1", tenant_id := "u1" }],
    knowledgebase := [{ id := "K1", tenant_id := "u1", name := "kb one",
                        doc_num := 1, chunk_num := 2, token_num := 3 }],
    document := [{ id := "d1", kb_id := "K1", name := "doc one",
                   chunk_num := 2, token_num := 3, run := 3 }],
    task := [{ id := "t1", doc_id := "d1" }],
    file := [{ id := "F1", source_type := "knowledgebase" }],
    file2document := [{ id := "j1", file_id := some "F1", document_id := "d1" }],
    dialog := [{ id := "C1", tenant_id := "u1" }],
    conversation := [{ id := "s1", dialog_id := "C1" }],
    user_canvas := [{ id := "A1", user_id := "u1" }],
    user_canvas_version := [{ id := "v1", user_canvas_id := "A1" }] }

/-- Sample store where two documents of dataset `K1` share file `F1` through
two separate join rows. -/
def dbShared : DB :=
  { emptyDB with
    knowledgebase := [{ id := "K1", tenant_id := "u1", name := "kb one",
                        doc_num := 2, chunk_num := 0, token_num := 0 }],
    document := [{ id := "d1", kb_id := "K1", name := "a",
                   chunk_num := 0, token_num := 0, run := 3 },
                 { id := "d2", kb_id := "K1", name := "b",
                   chunk_num := 0, token_num := 0, run := 3 }],
    file := [{ id := "F1", source_type := "knowledgebase" }],
    file2document := [{ id := "j1", file_id := some "F1", document_id := "d1" },
                      { id := "j2", file_id := some "F1", document_id := "d2" }] }

/-- Sample store for the counter-decrement scenario of the spec: dataset `D1`
with `chunk_num = 5` and two documents holding 3 chunks together. -/
def dbC3 : DB :=
  { emptyDB with
    knowledgebase := [{ id := "D1", tenant_id := "u1", name := "kb",
                        doc_num := 2, chunk_num := 5, token_num := 100 }],
    document := [{ id := "doc1", kb_id := "D1", name := "a",
                   chunk_num := 2, token_num := 60, run := 3 },
                 { id := "doc2", kb_id := "D1", name := "b",
                   chunk_num := 1, token_num := 20, run := 3 }] }

/-- Sample store with one unstarted document, for the status-filter
counterexample. -/
def dbC9 : DB :=
  { emptyDB with
    document := [{ id := "d0", kb_id := "K1", name := "pending doc",
                   chunk_num := 0, token_num := 0, run := 0 }] }

/-- Sample store where document `dX` belongs to dataset `K2`, not `K1`, but
still has a task and a file-join row. -/
def dbC10 : DB :=
  { emptyDB with
    knowledgebase := [{ id := "K1", tenant_id := "u1", name := "kb",
                        doc_num := 0, chunk_num := 0, token_num := 0 },
                      { id := "K2", tenant_id := "u1", name := "other",
                        doc_num := 1, chunk_num := 4, token_num := 9 }],
    document := [{ id := "dX", kb_id := "K2", name := "foreign",
                   chunk_num := 4, token_num := 9, run := 3 }],
    task := [{ id := "tX", doc_id := "dX" }],
    file := [{ id := "F2", source_type := "knowledgebase" }],
    file2document := [{ id := "jX", file_id := some "F2", document_id := "dX" }] }

/-! ### Claim theorems -/

/-- A transaction body that fails on every database, standing for a step
raising an exception. -/
def failingBody (e : OpError) : DB → Except OpError Report × DB :=
  fun db => (.error e, db)

/-- C1: every cascading deletion call (`delete_users`, `delete_datasets`,
`delete_chats`, `delete_agents`, `delete_documents`) runs its step sequence
through `execute_transaction`; whenever the step body raises any exception,
the wrapper discards the working state (rollback — the returned store is
exactly the store before the call, so no row deleted by an earlier step of
the same call remains deleted) and re-raises the same exception; and on both
the success and the failure path the emitted trace disables autocommit,
restores it, and ends by releasing the connection. -/
theorem C1_transaction_rollback_and_release (st : AdminSettings)
    (hconf : st.is_mysql_configured = true) :
    (∀ (body : DB → Except OpError Report × DB) (db : DB) (e : OpError),
        (body db).1 = .error e →
        execute_transaction st body db = (.error e, db, errTrace)) ∧
    (∀ (body : DB → Except OpError Report × DB) (db : DB) (r : Report) (w : DB),
        body db = (.ok r, w) →
        execute_transaction st body db = (.ok r, w, okTrace)) ∧
    (errTrace.getLast? = some .release ∧ okTrace.getLast? = some .release) ∧
    (DbEvent.setAutocommit false ∈ errTrace ∧ DbEvent.setAutocommit true ∈ errTrace ∧
     DbEvent.setAutocommit false ∈ okTrace ∧ DbEvent.setAutocommit true ∈ okTrace) ∧
    (DbEvent.rollback ∈ errTrace ∧ DbEvent.commit ∈ okTrace) ∧
    (∀ user_ids db, user_ids ≠ [] →
        delete_users user_ids st db = execute_transaction st (usersTxBody user_ids) db) ∧
    (∀ dataset_ids db, dataset_ids ≠ [] →
        delete_datasets dataset_ids st db =
          execute_transaction st (datasetsTxBody dataset_ids) db) ∧
    (∀ chat_ids db, chat_ids ≠ [] →
        delete_chats chat_ids st db = execute_transaction st (chatsTxBody chat_ids) db) ∧
    (∀ agent_ids db, agent_ids ≠ [] →
        delete_agents agent_ids st db = execute_transaction st (agentsTxBody agent_ids) db) ∧
    (∀ dataset_id document_ids db, document_ids ≠ [] →
        delete_documents dataset_id document_ids st db =
          execute_transaction st (documentsTxBody dataset_id document_ids) db) := by
  refine ⟨?_, ?_, ⟨rfl, rfl⟩, ⟨by decide, by decide, by decide, by decide⟩,
    ⟨by decide, by decide⟩, ?_, ?_, ?_, ?_, ?_⟩
  · intro body db e h
    cases hb : body db with
    | mk fst snd =>
      rw [hb] at h
      simp at h
      simp [execute_transaction, hconf, hb, h]
  · intro body db r w h
    simp [execute_transaction, hconf, h]
  · intro ids db hne
    have h0 : ids.isEmpty = false := by simpa [List.isEmpty_iff] using hne
    simp [delete_users, h0]
  · intro ids db hne
    have h0 : ids.isEmpty = false := by simpa [List.isEmpty_iff] using hne
    simp [delete_datasets, h0]
  · intro ids db hne
    have h0 : ids.isEmpty = false := by simpa [List.isEmpty_iff] using hne
    simp [delete_chats, h0]
  · intro ids db hne
    have h0 : ids.isEmpty = false := by simpa [List.isEmpty_iff] using hne
    simp [delete_agents, h0]
  · intro ds ids db hne
    have h0 : ids.isEmpty = false := by simpa [List.isEmpty_iff] using hne
    simp [delete_documents, h0]

/-- Concrete instantiation of `C1_transaction_rollback_and_release`: with
configured settings and a body raising a database error, the wrapper returns
the untouched store, re-raises the same error, and emits the rollback trace. -/
theorem C1_witness :
    stOK.is_mysql_configured = true ∧
    (failingBody (.databaseError "boom") dbU).1 = .error (.databaseError "boom") ∧
    execute_transaction stOK (failingBody (.databaseError "boom")) dbU =
      (.error (.databaseError "boom"), dbU, errTrace) :=
  ⟨rfl, rfl,
   (C1_transaction_rollback_and_release stOK rfl).1
     (failingBody (.databaseError "boom")) dbU (.databaseError "boom") rfl⟩

/-- Every count in a report is zero. -/
def allZero (r : Report) : Prop := ∀ p ∈ r, p.2 = 0

/-- C7: calling any cascading deletion operation with an empty root ID list
is accepted, returns its zero-valued count report, leaves the store
untouched, and emits no connection event at all — no connection is acquired
and no transaction is opened. -/
theorem C7_empty_list_short_circuit (st : AdminSettings) (db : DB) (dataset_id : String) :
    (delete_users [] st db = (.ok [("users", 0)], db, []) ∧
      allZero [("users", 0)]) ∧
    (delete_datasets [] st db =
        (.ok [("datasets", 0), ("documents", 0), ("tasks", 0), ("files", 0),
              ("file_relations", 0)], db, []) ∧
      allZero [("datasets", 0), ("documents", 0), ("tasks", 0), ("files", 0),
               ("file_relations", 0)]) ∧
    (delete_chats [] st db = (.ok [("chats", 0), ("conversations", 0)], db, []) ∧
      allZero [("chats", 0), ("conversations", 0)]) ∧
    (delete_agents [] st db = (.ok [("agents", 0), ("versions", 0)], db, []) ∧
      allZero [("agents", 0), ("versions", 0)]) ∧
    (delete_documents dataset_id [] st db =
        (.ok [("documents", 0), ("tasks", 0), ("files", 0), ("file_relations", 0)], db, []) ∧
      allZero [("documents", 0), ("tasks", 0), ("files", 0), ("file_relations", 0)]) := by
  refine ⟨⟨rfl, ?_⟩, ⟨rfl, ?_⟩, ⟨rfl, ?_⟩, ⟨rfl, ?_⟩, ⟨rfl, ?_⟩⟩ <;> simp [allZero]

/-- The categories of the user deletion graph, in report order. -/
def usersCategories : List String :=
  ["users", "tenants", "user_tenants", "datasets", "documents", "tasks", "files",
   "file_relations", "chats", "conversations", "agents", "agent_versions"]

/-- The categories of the dataset deletion graph. -/
def datasetsCategories : List String :=
  ["datasets", "documents", "tasks", "files", "file_relations"]

/-- The categories of the chat deletion graph. -/
def chatsCategories : List String := ["chats", "conversations"]

/-- The categories of the agent deletion graph. -/
def agentsCategories : List String := ["agents", "versions"]

/-- The categories of the document-subset deletion graph. -/
def documentsCategories : List String := ["documents", "tasks", "files", "file_relations"]

/-- C6 counterexample: `delete_users` called with an empty root ID list
returns the single-entry mapping `{"users": 0}`, which has no entry for the
`tenants` or `datasets` categories of the user deletion graph — so a
category IS absent from the mapping of a successful call. -/
theorem C6_counterexample :
    (delete_users [] stOK emptyDB).1 = .ok [("users", 0)] ∧
    ([("users", 0)] : Report).lookup "tenants" = none ∧
    ([("users", 0)] : Report).lookup "datasets" = none :=
  ⟨rfl, rfl, rfl⟩

/-- C6 as amended: every successful cascading deletion call with a non-empty
root ID list returns a mapping with exactly the categories of its deletion
graph (unreached steps report 0, shown here for the case where the owner has
no datasets), and the empty-list calls of `delete_datasets`, `delete_chats`,
`delete_agents` and `delete_documents` also carry every category — but the
empty-list `delete_users` call returns only the `users` entry. -/
theorem C6_amended_category_presence (st : AdminSettings) :
    (∀ ids db (rep : Report), ids ≠ [] → (delete_users ids st db).1 = .ok rep →
        rep.map Prod.fst = usersCategories) ∧
    (∀ ids db (rep : Report), (delete_datasets ids st db).1 = .ok rep →
        rep.map Prod.fst = datasetsCategories) ∧
    (∀ ids db (rep : Report), (delete_chats ids st db).1 = .ok rep →
        rep.map Prod.fst = chatsCategories) ∧
    (∀ ids db (rep : Report), (delete_agents ids st db).1 = .ok rep →
        rep.map Prod.fst = agentsCategories) ∧
    (∀ ds ids db (rep : Report), (delete_documents ds ids st db).1 = .ok rep →
        rep.map Prod.fst = documentsCategories) ∧
    (∀ db, (delete_users [] st db).1 = .ok [("users", 0)]) ∧
    (∀ ids db (rep : Report), ids ≠ [] → ownedKbIds db.knowledgebase ids = [] →
        (delete_users ids st db).1 = .ok rep →
        rep.lookup "datasets" = some 0 ∧ rep.lookup "documents" = some 0 ∧
        rep.lookup "tasks" = some 0 ∧ rep.lookup "files" = some 0 ∧
        rep.lookup "file_relations" = some 0) := by
  refine ⟨?_, ?_, ?_, ?_, ?_, fun db => rfl, ?_⟩
  · intro ids db rep hne h
    have hc := config_of_users_ok hne h
    rw [delete_users_ok ids st db hne hc] at h
    simp at h
    subst h
    simp [usersReport, usersCategories]
  · intro ids db rep h
    by_cases hne : ids = []
    · subst hne
      simp [delete_datasets] at h
      subst h
      simp [datasetsCategories]
    · have hc := config_of_datasets_ok hne h
      rw [delete_datasets_ok ids st db hne hc] at h
      simp at h
      subst h
      simp [datasetsReport, datasetsCategories]
  · intro ids db rep h
    by_cases hne : ids = []
    · subst hne
      simp [delete_chats] at h
      subst h
      simp [chatsCategories]
    · have hc := config_of_chats_ok hne h
      rw [delete_chats_ok ids st db hne hc] at h
      simp at h
      subst h
      simp [chatsReport, chatsCategories]
  · intro ids db rep h
    by_cases hne : ids = []
    · subst hne
      simp [delete_agents] at h
      subst h
      simp [agentsCategories]
    · have hc := config_of_agents_ok hne h
      rw [delete_agents_ok ids st db hne hc] at h
      simp at h
      subst h
      simp [agentsReport, agentsCategories]
  · intro ds ids db rep h
    by_cases hne : ids = []
    · subst hne
      simp [delete_documents] at h
      subst h
      simp [documentsCategories]
    · have hc := config_of_documents_ok hne h
      rw [delete_documents_ok ds ids st db hne hc] at h
      simp at h
      subst h
      simp [documentsReport, documentsCategories]
  · intro ids db rep hne hkb h
    have hc := config_of_users_ok hne h
    rw [delete_users_ok ids st db hne hc] at h
    simp at h
    subst h
    simp [usersReport, hkb, List.lookup]

/-- Concrete instantiation of `C6_amended_category_presence`: a successful
single-user deletion reports every category of the user deletion graph. -/
theorem C6_amended_witness :
    (["u1"] ≠ ([] : List String)) ∧
    ((delete_users ["u1"] stOK dbU).1 = .ok (usersReport ["u1"] dbU)) ∧
    (usersReport ["u1"] dbU).map Prod.fst = usersCategories := by
  refine ⟨by decide, by rfl, ?_⟩
  exact (C6_amended_category_presence stOK).1 ["u1"] dbU (usersReport ["u1"] dbU)
    (by decide) (by rfl)

/-- C2 counterexample: in `dbShared`, documents `d1` and `d2` share file `F1`
via two join rows; deleting only `d1` removes `d1`'s join row and leaves
`d2`'s join row behind, yet the file table ends up empty — `F1` is deleted
even though a referencing join row remains, contradicting the claim that the
File row would be left in place. -/
theorem C2_counterexample :
    (dbShared.file = [{ id := "F1", source_type := "knowledgebase" }]) ∧
    ((delete_documents "K1" ["d1"] stOK dbShared).2.1).file2document =
      [{ id := "j2", file_id := some "F1", document_id := "d2" }] ∧
    ((delete_documents "K1" ["d1"] stOK dbShared).2.1).file = [] :=
  ⟨rfl, rfl, rfl⟩

/-- C2 as amended: in every successful deletion call that touches files, a
File row is deleted exactly when its id was collected from the target
documents' join rows (with a non-null, non-empty file id) and its source
type is `"knowledgebase"` — no check that other join rows still reference
the file is performed, so a file shared with documents outside the target
set is deleted together with the first target document. -/
theorem C2_amended_file_deletion_rule (st : AdminSettings) :
    (∀ ids db (rep : Report), (delete_users ids st db).1 = .ok rep →
        ((delete_users ids st db).2.1).file =
          db.file.filter (fun f =>
            !((collectFileIds db.file2document
                (docIdsOfKbs db.document (ownedKbIds db.knowledgebase ids))).contains f.id &&
              f.source_type == "knowledgebase"))) ∧
    (∀ ids db (rep : Report), (delete_datasets ids st db).1 = .ok rep →
        ((delete_datasets ids st db).2.1).file =
          db.file.filter (fun f =>
            !((collectFileIds db.file2document (docIdsOfKbs db.document ids)).contains f.id &&
              f.source_type == "knowledgebase"))) ∧
    (∀ ds ids db (rep : Report), (delete_documents ds ids st db).1 = .ok rep →
        ((delete_documents ds ids st db).2.1).file =
          db.file.filter (fun f =>
            !((collectFileIds db.file2document ids).contains f.id &&
              f.source_type == "knowledgebase"))) := by
  refine ⟨?_, ?_, ?_⟩
  · intro ids db rep h
    by_cases hne : ids = []
    · subst hne
      simp [delete_users]
    · have hc := config_of_users_ok hne h
      rw [delete_users_ok ids st db hne hc]
      simp [usersFinalDB]
  · intro ids db rep h
    by_cases hne : ids = []
    · subst hne
      simp [delete_datasets]
    · have hc := config_of_datasets_ok hne h
      rw [delete_datasets_ok ids st db hne hc]
      simp [datasetsFinalDB]
  · intro ds ids db rep h
    by_cases hne : ids = []
    · subst hne
      simp [delete_documents]
    · have hc := config_of_documents_ok hne h
      rw [delete_documents_ok ds ids st db hne hc]
      simp [documentsFinalDB]

/-- Concrete instantiation of `C2_amended_file_deletion_rule` on the
shared-file store. -/
theorem C2_amended_witness :
    ((delete_documents "K1" ["d1"] stOK dbShared).1 =
      .ok (documentsReport "K1" ["d1"] dbShared)) ∧
    ((delete_documents "K1" ["d1"] stOK dbShared).2.1).file =
      dbShared.file.filter (fun f =>
        !((collectFileIds dbShared.file2document ["d1"]).contains f.id &&
          f.source_type == "knowledgebase")) := by
  refine ⟨by rfl, ?_⟩
  exact (C2_amended_file_deletion_rule stOK).2.2 "K1" ["d1"] dbShared
    (documentsReport "K1" ["d1"] dbShared) (by rfl)

/-- C3: in every successful `delete_documents` call that deletes at least one
document, every `knowledgebase` row of the target dataset ends up with its
counters decremented by the number of deleted documents and the sums of the
deleted documents' chunk and token counts, each clamped at zero via
`GREATEST(0, ...)` — so the resulting counters are never negative. -/
theorem C3_counter_decrement_clamped (dataset_id : String) (document_ids : List String)
    (st : AdminSettings) (db : DB) (rep : Report)
    (h : (delete_documents dataset_id document_ids st db).1 = .ok rep)
    (hn : 0 < db.document.countP (fun d => d.kb_id == dataset_id && document_ids.contains d.id)) :
    ∀ kb' ∈ ((delete_documents dataset_id document_ids st db).2.1).knowledgebase,
      kb'.id = dataset_id →
        (0 ≤ kb'.doc_num ∧ 0 ≤ kb'.chunk_num ∧ 0 ≤ kb'.token_num) ∧
        ∃ kb ∈ db.knowledgebase, kb.id = dataset_id ∧
          kb' = clampCounters kb
            (db.document.countP (fun d => d.kb_id == dataset_id && document_ids.contains d.id))
            (((db.document.filter
                (fun d => d.kb_id == dataset_id && document_ids.contains d.id)).map
              (·.chunk_num)).sum)
            (((db.document.filter
                (fun d => d.kb_id == dataset_id && document_ids.contains d.id)).map
              (·.token_num)).sum) := by
  have hne : document_ids ≠ [] := by
    intro hnil
    subst hnil
    simp at hn
  have hc := config_of_documents_ok hne h
  rw [delete_documents_ok dataset_id document_ids st db hne hc]
  intro kb' hkb' hid
  simp only [documentsFinalDB] at hkb'
  rw [if_pos hn] at hkb'
  rcases List.mem_map.mp hkb' with ⟨kb, hkb, hEq⟩
  by_cases hkbds : kb.id = dataset_id
  · rw [if_pos (by simpa using hkbds)] at hEq
    subst hEq
    refine ⟨⟨le_max_left 0 _, le_max_left 0 _, le_max_left 0 _⟩, kb, hkb, hkbds, rfl⟩
  · rw [if_neg (by simpa using hkbds)] at hEq
    subst hEq
    exact absurd hid hkbds

/-- Concrete instantiation of `C3_counter_decrement_clamped` on the spec
scenario: deleting `doc1` and `doc2` (3 chunks together) from dataset `D1`
with `chunk_num = 5` yields a clamped, non-negative counter update (and the
resulting row indeed has `chunk_num = 2`). -/
theorem C3_witness :
    (0 < dbC3.document.countP (fun d => d.kb_id == "D1" && ["doc1", "doc2"].contains d.id)) ∧
    ((delete_documents "D1" ["doc1", "doc2"] stOK dbC3).1 =
      .ok (documentsReport "D1" ["doc1", "doc2"] dbC3)) ∧
    (((delete_documents "D1" ["doc1", "doc2"] stOK dbC3).2.1).knowledgebase =
      [{ id := "D1", tenant_id := "u1", name := "kb",
         doc_num := 0, chunk_num := 2, token_num := 20 }]) ∧
    (∀ kb' ∈ ((delete_documents "D1" ["doc1", "doc2"] stOK dbC3).2.1).knowledgebase,
      kb'.id = "D1" →
        (0 ≤ kb'.doc_num ∧ 0 ≤ kb'.chunk_num ∧ 0 ≤ kb'.token_num) ∧
        ∃ kb ∈ dbC3.knowledgebase, kb.id = "D1" ∧
          kb' = clampCounters kb
            (dbC3.document.countP (fun d => d.kb_id == "D1" && ["doc1", "doc2"].contains d.id))
            (((dbC3.document.filter
                (fun d => d.kb_id == "D1" && ["doc1", "doc2"].contains d.id)).map
              (·.chunk_num)).sum)
            (((dbC3.document.filter
                (fun d => d.kb_id == "D1" && ["doc1", "doc2"].contains d.id)).map
              (·.token_num)).sum)) := by
  refine ⟨by decide, by rfl, by rfl, ?_⟩
  exact C3_counter_decrement_clamped "D1" ["doc1", "doc2"] stOK dbC3
    (documentsReport "D1" ["doc1", "doc2"] dbC3) (by rfl) (by decide)

/-- C10: in every successful `delete_documents(dataset_id, document_ids)`
call, task rows and file2document join rows are deleted for every listed
document id regardless of the document's dataset, while document rows are
deleted — and the dataset counter update applied — only for listed documents
whose `kb_id` equals `dataset_id`. -/
theorem C10_scoping_of_document_subset_delete (dataset_id : String)
    (document_ids : List String) (st : AdminSettings) (db : DB) (rep : Report)
    (h : (delete_documents dataset_id document_ids st db).1 = .ok rep) :
    ((delete_documents dataset_id document_ids st db).2.1).task =
      db.task.filter (fun t => !document_ids.contains t.doc_id) ∧
    ((delete_documents dataset_id document_ids st db).2.1).file2document =
      db.file2document.filter (fun j => !document_ids.contains j.document_id) ∧
    ((delete_documents dataset_id document_ids st db).2.1).document =
      db.document.filter (fun d => !(d.kb_id == dataset_id && document_ids.contains d.id)) ∧
    ((delete_documents dataset_id document_ids st db).2.1).knowledgebase =
      (if 0 < db.document.countP (fun d => d.kb_id == dataset_id && document_ids.contains d.id)
       then db.knowledgebase.map (fun kb =>
          if kb.id == dataset_id then
            clampCounters kb
              (db.document.countP (fun d => d.kb_id == dataset_id && document_ids.contains d.id))
              (((db.document.filter
                  (fun d => d.kb_id == dataset_id && document_ids.contains d.id)).map
                (·.chunk_num)).sum)
              (((db.document.filter
                  (fun d => d.kb_id == dataset_id && document_ids.contains d.id)).map
                (·.token_num)).sum)
          else kb)
       else db.knowledgebase) := by
  by_cases hne : document_ids = []
  · subst hne
    simp [delete_documents]
  · have hc := config_of_documents_ok hne h
    rw [delete_documents_ok dataset_id document_ids st db hne hc]
    simp [documentsFinalDB]

/-- Concrete instantiation of `C10_scoping_of_document_subset_delete`:
document `dX` belongs to dataset `K2`, yet a `delete_documents("K1", ["dX"])`
call removes its task and join row while leaving the document row and the
dataset counters untouched. -/
theorem C10_witness :
    ((delete_documents "K1" ["dX"] stOK dbC10).1 = .ok (documentsReport "K1" ["dX"] dbC10)) ∧
    (((delete_documents "K1" ["dX"] stOK dbC10).2.1).task = []) ∧
    (((delete_documents "K1" ["dX"] stOK dbC10).2.1).document = dbC10.document) ∧
    (((delete_documents "K1" ["dX"] stOK dbC10).2.1).knowledgebase = dbC10.knowledgebase) ∧
    (((delete_documents "K1" ["dX"] stOK dbC10).2.1).task =
      dbC10.task.filter (fun t => !(["dX"] : List String).contains t.doc_id)) := by
  refine ⟨by rfl, by rfl, by rfl, by rfl, ?_⟩
  exact (C10_scoping_of_document_subset_delete "K1" ["dX"] stOK dbC10
    (documentsReport "K1" ["dX"] dbC10) (by rfl)).1

/-- C8 counterexample: with the required connection parameters absent,
`delete_users` invoked with an empty ID list does NOT raise the typed
configuration error — it returns its zero report normally, because the
empty-list short-circuit runs before `_get_connection` is ever called. -/
theorem C8_counterexample :
    stBad.is_mysql_configured = false ∧
    delete_users [] stBad emptyDB = (.ok [("users", 0)], emptyDB, []) :=
  ⟨rfl, rfl⟩

/-- C8 as amended: when the required connection parameters (host, database
or user) are absent, every pooled database operation that proceeds past its
empty-ID-list short-circuit raises the typed configuration error
(`MySQLClientError("MySQL connection not configured")`) immediately — no
connection event is emitted, no statement runs, and the store is untouched;
deletion calls short-circuited by an empty ID list instead return their zero
report, equally without touching the database. -/
theorem C8_amended_config_error_before_connection (st : AdminSettings)
    (hnc : st.is_mysql_configured = false) :
    (∀ ids (db : DB), ids ≠ [] →
        delete_users ids st db = (.error notConfiguredError, db, [])) ∧
    (∀ ids (db : DB), ids ≠ [] →
        delete_datasets ids st db = (.error notConfiguredError, db, [])) ∧
    (∀ ids (db : DB), ids ≠ [] →
        delete_chats ids st db = (.error notConfiguredError, db, [])) ∧
    (∀ ids (db : DB), ids ≠ [] →
        delete_agents ids st db = (.error notConfiguredError, db, [])) ∧
    (∀ ds ids (db : DB), ids ≠ [] →
        delete_documents ds ids st db = (.error notConfiguredError, db, [])) ∧
    (∀ s dn dm ow (db : DB),
        list_parsing_tasks st s dn dm ow db = (.error notConfiguredError, db, [])) ∧
    (∀ (db : DB) ds,
        delete_users [] st db = (.ok [("users", 0)], db, []) ∧
        delete_datasets [] st db =
          (.ok [("datasets", 0), ("documents", 0), ("tasks", 0), ("files", 0),
                ("file_relations", 0)], db, []) ∧
        delete_chats [] st db = (.ok [("chats", 0), ("conversations", 0)], db, []) ∧
        delete_agents [] st db = (.ok [("agents", 0), ("versions", 0)], db, []) ∧
        delete_documents ds [] st db =
          (.ok [("documents", 0), ("tasks", 0), ("files", 0), ("file_relations", 0)],
           db, [])) := by
  refine ⟨?_, ?_, ?_, ?_, ?_, ?_, fun db ds => ⟨rfl, rfl, rfl, rfl, rfl⟩⟩
  · intro ids db hne
    have h0 : ids.isEmpty = false := by simpa [List.isEmpty_iff] using hne
    simp [delete_users, h0, execute_transaction, hnc]
  · intro ids db hne
    have h0 : ids.isEmpty = false := by simpa [List.isEmpty_iff] using hne
    simp [delete_datasets, h0, execute_transaction, hnc]
  · intro ids db hne
    have h0 : ids.isEmpty = false := by simpa [List.isEmpty_iff] using hne
    simp [delete_chats, h0, execute_transaction, hnc]
  · intro ids db hne
    have h0 : ids.isEmpty = false := by simpa [List.isEmpty_iff] using hne
    simp [delete_agents, h0, execute_transaction, hnc]
  · intro ds ids db hne
    have h0 : ids.isEmpty = false := by simpa [List.isEmpty_iff] using hne
    simp [delete_documents, h0, execute_transaction, hnc]
  · intro s dn dm ow db
    simp [list_parsing_tasks, withConnection, hnc]

/-- Concrete instantiation of `C8_amended_config_error_before_connection`:
unconfigured settings make a non-empty `delete_users` call fail with the
typed error, with no event and no store change. -/
theorem C8_amended_witness :
    stBad.is_mysql_configured = false ∧
    (["u1"] ≠ ([] : List String)) ∧
    delete_users ["u1"] stBad dbU = (.error notConfiguredError, dbU, []) := by
  refine ⟨rfl, by decide, ?_⟩
  exact (C8_amended_config_error_before_connection stBad rfl).1 ["u1"] dbU (by decide)

/-- C9 counterexample: `"BOGUS"` is outside the recognised run-status
enumeration and is not a digit string, yet `list_parsing_tasks` does not
reject it — the status is silently coerced to `0` (UNSTART) and the query
proceeds, matching the pending document of `dbC9`. -/
theorem C9_counterexample :
    statusToNum.lookup "BOGUS" = none ∧
    pyIsDigit "BOGUS" = false ∧
    parseRunStatus "BOGUS" = 0 ∧
    list_parsing_tasks stOK (some "BOGUS") none none none dbC9 =
      (.ok (1, ["d0"]), dbC9, [.acquire, .release]) :=
  ⟨rfl, by decide, rfl, by rfl⟩

/-- C9 as amended: an empty (or absent) ID list is rejected by the route
layer with a validation error before any connection is acquired or
transaction opened; a run-status value outside the recognised enumeration is
NOT rejected — the listing operation always succeeds, coercing an
unrecognised non-numeric status to `0` (UNSTART) and using digit strings as
the number they spell. -/
theorem C9_amended_validation (st : AdminSettings) (hc : st.is_mysql_configured = true) :
    (∀ db : DB,
        batch_delete_users st (some []) db =
          ({ code := -1, message := "ids is required", http_status := 400, deleted := none },
           db, []) ∧
        batch_delete_users st none db =
          ({ code := -1, message := "ids is required", http_status := 400, deleted := none },
           db, [])) ∧
    (∀ s : String, statusToNum.lookup s = none → pyIsDigit s = false →
        parseRunStatus s = 0) ∧
    (∀ s dn dm ow (db : DB), ∃ res,
        list_parsing_tasks st s dn dm ow db = (.ok res, db, [.acquire, .release])) := by
  refine ⟨?_, ?_, ?_⟩
  · intro db
    constructor <;> simp [batch_delete_users, hc]
  · intro s h1 h2
    simp [parseRunStatus, h1, h2]
  · intro s dn dm ow db
    refine ⟨((db.document.filter (parsingTaskPred db s dn dm ow)).length,
             (db.document.filter (parsingTaskPred db s dn dm ow)).map (·.id)), ?_⟩
    simp [list_parsing_tasks, withConnection, hc]

/-- Concrete instantiation of `C9_amended_validation`: the route rejects an
empty ID list with the 400 validation response before any database event. -/
theorem C9_amended_witness :
    stOK.is_mysql_configured = true ∧
    batch_delete_users stOK (some []) emptyDB =
      ({ code := -1, message := "ids is required", http_status := 400, deleted := none },
       emptyDB, []) :=
  ⟨rfl, ((C9_amended_validation stOK rfl).1 emptyDB).1⟩

theorem mem_ownedKbIds {rows : List KnowledgebaseRow} {U : List String}
    {kb : KnowledgebaseRow} (hkb : kb ∈ rows) (ht : kb.tenant_id ∈ U) :
    kb.id ∈ ownedKbIds rows U := by
  simp only [ownedKbIds, List.mem_map]
  exact ⟨kb, List.mem_filter.mpr ⟨hkb, by simpa using ht⟩, rfl⟩

theorem mem_docIdsOfKbs {rows : List DocumentRow} {kb_ids : List String}
    {d : DocumentRow} (hd : d ∈ rows) (hk : d.kb_id ∈ kb_ids) :
    d.id ∈ docIdsOfKbs rows kb_ids := by
  simp only [docIdsOfKbs, List.mem_map]
  exact ⟨d, List.mem_filter.mpr ⟨hd, by simpa using hk⟩, rfl⟩

theorem mem_ownedAgentIds {rows : List UserCanvasRow} {U : List String}
    {a : UserCanvasRow} (ha : a ∈ rows) (hu : a.user_id ∈ U) :
    a.id ∈ ownedAgentIds rows U := by
  simp only [ownedAgentIds, List.mem_map]
  exact ⟨a, List.mem_filter.mpr ⟨ha, by simpa using hu⟩, rfl⟩

/-- A dataset row references one of the owners in `U`. -/
def refsOwnerKb (U : List String) (kb : KnowledgebaseRow) : Prop := kb.tenant_id ∈ U

/-- A document row references (via a dataset row in `db`) an owner in `U`. -/
def refsOwnerDoc (db : DB) (U : List String) (d : DocumentRow) : Prop :=
  ∃ kb ∈ db.knowledgebase, kb.id = d.kb_id ∧ kb.tenant_id ∈ U

/-- A task row references (via document and dataset rows in `db`) an owner in
`U`. -/
def refsOwnerTask (db : DB) (U : List String) (t : TaskRow) : Prop :=
  ∃ d ∈ db.document, d.id = t.doc_id ∧ refsOwnerDoc db U d

/-- A file2document row references (via document and dataset rows in `db`)
an owner in `U`. -/
def refsOwnerJoin (db : DB) (U : List String) (j : File2DocumentRow) : Prop :=
  ∃ d ∈ db.document, d.id = j.document_id ∧ refsOwnerDoc db U d

/-- A dialog row references an owner in `U`. -/
def refsOwnerDialog (U : List String) (dl : DialogRow) : Prop := dl.tenant_id ∈ U

/-- A conversation row references (via a dialog row in `db`) an owner in
`U`. -/
def refsOwnerConv (db : DB) (U : List String) (c : ConversationRow) : Prop :=
  ∃ dl ∈ db.dialog, dl.id = c.dialog_id ∧ dl.tenant_id ∈ U

/-- An agent row references an owner in `U`. -/
def refsOwnerAgent (U : List String) (a : UserCanvasRow) : Prop := a.user_id ∈ U

/-- An agent-version row references (via an agent row in `db`) an owner in
`U`. -/
def refsOwnerVersion (db : DB) (U : List String) (v : UserCanvasVersionRow) : Prop :=
  ∃ a ∈ db.user_canvas, a.id = v.user_canvas_id ∧ a.user_id ∈ U

/-- A tenancy-link row references an owner in `U`. -/
def refsOwnerLink (U : List String) (ut : UserTenantRow) : Prop :=
  ut.user_id ∈ U ∨ ut.tenant_id ∈ U

/-- A tenant row references an owner in `U`. -/
def refsOwnerTenant (U : List String) (t : TenantRow) : Prop := t.id ∈ U

/-- No row of the dependent tables of `db'` references — directly or
transitively through the rows of the pre-state `db` — an owner in `U`. -/
def noOwnerRefsRemain (U : List String) (db db' : DB) : Prop :=
  (∀ kb ∈ db'.knowledgebase, ¬ refsOwnerKb U kb) ∧
  (∀ d ∈ db'.document, ¬ refsOwnerDoc db U d) ∧
  (∀ t ∈ db'.task, ¬ refsOwnerTask db U t) ∧
  (∀ j ∈ db'.file2document, ¬ refsOwnerJoin db U j) ∧
  (∀ dl ∈ db'.dialog, ¬ refsOwnerDialog U dl) ∧
  (∀ c ∈ db'.conversation, ¬ refsOwnerConv db U c) ∧
  (∀ a ∈ db'.user_canvas, ¬ refsOwnerAgent U a) ∧
  (∀ v ∈ db'.user_canvas_version, ¬ refsOwnerVersion db U v) ∧
  (∀ ut ∈ db'.user_tenant, ¬ refsOwnerLink U ut) ∧
  (∀ t ∈ db'.tenant, ¬ refsOwnerTenant U t)

/-- C4: after every successful `delete_users` call, no row remains in
`knowledgebase`, `document`, `task`, `file2document`, `dialog`,
`conversation`, `user_canvas`, `user_canvas_version`, `user_tenant` or
`tenant` that references — directly or transitively via an owned dataset,
document, chat or agent — any of the deleted owners. -/
theorem C4_owner_cascade_complete (user_ids : List String) (st : AdminSettings)
    (db : DB) (rep : Report)
    (h : (delete_users user_ids st db).1 = .ok rep) :
    noOwnerRefsRemain user_ids db ((delete_users user_ids st db).2.1) := by
  by_cases hne : user_ids = []
  · subst hne
    simp [delete_users, noOwnerRefsRemain, refsOwnerKb, refsOwnerDoc, refsOwnerTask,
      refsOwnerJoin, refsOwnerDialog, refsOwnerConv, refsOwnerAgent, refsOwnerVersion,
      refsOwnerLink, refsOwnerTenant]
  · have hc := config_of_users_ok hne h
    rw [delete_users_ok user_ids st db hne hc]
    refine ⟨?_, ?_, ?_, ?_, ?_, ?_, ?_, ?_, ?_, ?_⟩
    · intro kb hkb href
      simp only [usersFinalDB, List.mem_filter] at hkb
      obtain ⟨hmem, hpred⟩ := hkb
      simp at hpred
      exact hpred (mem_ownedKbIds hmem href)
    · intro d hd href
      simp only [usersFinalDB, List.mem_filter] at hd
      obtain ⟨hmem, hpred⟩ := hd
      simp at hpred
      obtain ⟨kb, hkbmem, hkbid, hkbten⟩ := href
      exact hpred (hkbid ▸ mem_ownedKbIds hkbmem hkbten)
    · intro t ht href
      simp only [usersFinalDB, List.mem_filter] at ht
      obtain ⟨hmem, hpred⟩ := ht
      simp at hpred
      obtain ⟨d, hdmem, hdid, kb, hkbmem, hkbid, hkbten⟩ := href
      exact hpred (hdid ▸ mem_docIdsOfKbs hdmem (hkbid ▸ mem_ownedKbIds hkbmem hkbten))
    · intro j hj href
      simp only [usersFinalDB, List.mem_filter] at hj
      obtain ⟨hmem, hpred⟩ := hj
      simp at hpred
      obtain ⟨d, hdmem, hdid, kb, hkbmem, hkbid, hkbten⟩ := href
      exact hpred (hdid ▸ mem_docIdsOfKbs hdmem (hkbid ▸ mem_ownedKbIds hkbmem hkbten))
    · intro dl hdl href
      simp only [usersFinalDB, List.mem_filter] at hdl
      obtain ⟨hmem, hpred⟩ := hdl
      simp at hpred
      exact hpred href
    · intro c hcv href
      simp only [usersFinalDB, List.mem_filter] at hcv
      obtain ⟨hmem, hpred⟩ := hcv
      simp at hpred
      obtain ⟨dl, hdlmem, hdlid, hdlten⟩ := href
      exact absurd (hpred dl hdlmem hdlid) (by simpa using hdlten)
    · intro a ha href
      simp only [usersFinalDB, List.mem_filter] at ha
      obtain ⟨hmem, hpred⟩ := ha
      simp at hpred
      exact hpred href
    · intro v hv href
      simp only [usersFinalDB, List.mem_filter] at hv
      obtain ⟨hmem, hpred⟩ := hv
      simp at hpred
      obtain ⟨a, hamem, haid, hauser⟩ := href
      exact hpred (haid ▸ mem_ownedAgentIds hamem hauser)
    · intro ut hut href
      simp only [usersFinalDB, List.mem_filter] at hut
      obtain ⟨hmem, hpred⟩ := hut
      simp at hpred
      rcases href with h1 | h2
      · exact hpred.1 h1
      · exact hpred.2 h2
    · intro t ht href
      simp only [usersFinalDB, List.mem_filter] at ht
      obtain ⟨hmem, hpred⟩ := ht
      simp at hpred
      exact hpred href

/-- Concrete instantiation of `C4_owner_cascade_complete` on `dbU`, whose
single owner `u1` owns a dataset, document, task, file join, chat,
conversation, agent and agent version. -/
theorem C4_witness :
    ((delete_users ["u1"] stOK dbU).1 = .ok (usersReport ["u1"] dbU)) ∧
    noOwnerRefsRemain ["u1"] dbU ((delete_users ["u1"] stOK dbU).2.1) :=
  ⟨by rfl, C4_owner_cascade_complete ["u1"] stOK dbU (usersReport ["u1"] dbU) (by rfl)⟩

theorem countP_filter_not (l : List ρ) (p : ρ → Bool) :
    (l.filter (fun x => !(p x))).countP p = 0 := by
  rw [List.countP_eq_zero]
  intro a ha
  have hpa := (List.mem_filter.mp ha).2
  simp at hpa
  simp [hpa]

theorem kbIds_after_users (ids : List String) (db : DB) :
    ownedKbIds (usersFinalDB ids db).knowledgebase ids = [] := by
  rw [ownedKbIds, List.map_eq_nil_iff, List.filter_eq_nil_iff]
  intro kb hkb
  have hmem := List.mem_filter.mp hkb
  have hnotin : kb.id ∉ ownedKbIds db.knowledgebase ids := by
    have := hmem.2
    simpa using this
  intro ht
  exact hnotin (mem_ownedKbIds hmem.1 (by simpa using ht))

theorem agentIds_after_users (ids : List String) (db : DB) :
    ownedAgentIds (usersFinalDB ids db).user_canvas ids = [] := by
  rw [ownedAgentIds, List.map_eq_nil_iff, List.filter_eq_nil_iff]
  intro a ha
  have hmem := List.mem_filter.mp ha
  have := hmem.2
  simp at this
  simp [this]

theorem docIds_after_datasets (ids : List String) (db : DB) :
    docIdsOfKbs (datasetsFinalDB ids db).document ids = [] := by
  rw [docIdsOfKbs, List.filter_eq_nil_iff.mpr, List.map_nil]
  intro d hd
  have hmem := List.mem_filter.mp hd
  have hnotin : d.id ∉ docIdsOfKbs db.document ids := by
    have := hmem.2
    simpa using this
  intro hk
  exact hnotin (mem_docIdsOfKbs hmem.1 (by simpa using hk))

theorem usersReport_on_deleted (ids : List String) (db : DB) :
    allZero (usersReport ids (usersFinalDB ids db)) := by
  have hkb := kbIds_after_users ids db
  have hag := agentIds_after_users ids db
  simp only [allZero, usersReport, hkb, hag, docIdsOfKbs_nil, collectFileIds_nil]
  intro p hp
  simp only [List.mem_cons, List.not_mem_nil, or_false] at hp
  rcases hp with hp | hp | hp | hp | hp | hp | hp | hp | hp | hp | hp | hp <;> subst hp
  · exact countP_filter_not _ _
  · exact countP_filter_not _ _
  · exact countP_filter_not _ _
  · simp
  · simp
  · simp
  · simp
  · simp
  · exact countP_filter_not _ _
  · rw [List.countP_eq_zero]
    intro c _
    rw [Bool.not_eq_true, List.any_eq_false]
    intro d hd
    simp only [usersFinalDB] at hd
    have h2 := (List.mem_filter.mp hd).2
    simp at h2
    simp [h2]
  · exact countP_filter_not _ _
  · simp

theorem datasetsReport_on_deleted (ids : List String) (db : DB) :
    allZero (datasetsReport ids (datasetsFinalDB ids db)) := by
  have hdoc := docIds_after_datasets ids db
  simp only [allZero, datasetsReport, hdoc, collectFileIds_nil]
  intro p hp
  simp only [List.mem_cons, List.not_mem_nil, or_false] at hp
  rcases hp with hp | hp | hp | hp | hp <;> subst hp
  · exact countP_filter_not _ _
  · simp
  · simp
  · simp
  · simp

theorem chatsReport_on_deleted (ids : List String) (db : DB) :
    allZero (chatsReport ids (chatsFinalDB ids db)) := by
  simp only [allZero, chatsReport]
  intro p hp
  simp only [List.mem_cons, List.not_mem_nil, or_false] at hp
  rcases hp with hp | hp <;> subst hp
  · exact countP_filter_not _ _
  · exact countP_filter_not _ _

theorem agentsReport_on_deleted (ids : List String) (db : DB) :
    allZero (agentsReport ids (agentsFinalDB ids db)) := by
  simp only [allZero, agentsReport]
  intro p hp
  simp only [List.mem_cons, List.not_mem_nil, or_false] at hp
  rcases hp with hp | hp <;> subst hp
  · exact countP_filter_not _ _
  · exact countP_filter_not _ _

/-- C5: running `delete_users`, `delete_datasets`, `delete_chats` or
`delete_agents` a second time on an ID list that a first successful call
already deleted succeeds and returns a report in which every count is
zero. -/
theorem C5_second_delete_all_zero (st : AdminSettings) :
    (∀ ids db (rep : Report) db1 tr, delete_users ids st db = (.ok rep, db1, tr) →
        ∃ rep2 db2 tr2, delete_users ids st db1 = (.ok rep2, db2, tr2) ∧ allZero rep2) ∧
    (∀ ids db (rep : Report) db1 tr, delete_datasets ids st db = (.ok rep, db1, tr) →
        ∃ rep2 db2 tr2, delete_datasets ids st db1 = (.ok rep2, db2, tr2) ∧ allZero rep2) ∧
    (∀ ids db (rep : Report) db1 tr, delete_chats ids st db = (.ok rep, db1, tr) →
        ∃ rep2 db2 tr2, delete_chats ids st db1 = (.ok rep2, db2, tr2) ∧ allZero rep2) ∧
    (∀ ids db (rep : Report) db1 tr, delete_agents ids st db = (.ok rep, db1, tr) →
        ∃ rep2 db2 tr2, delete_agents ids st db1 = (.ok rep2, db2, tr2) ∧ allZero rep2) := by
  refine ⟨?_, ?_, ?_, ?_⟩
  · intro ids db rep db1 tr h
    by_cases hne : ids = []
    · subst hne
      have hdb : db = db1 := by
        have := congrArg (fun x => x.2.1) h
        simpa [delete_users] using this
      subst hdb
      exact ⟨[("users", 0)], db, [], rfl, by simp [allZero]⟩
    · have h1 : (delete_users ids st db).1 = .ok rep := by rw [h]
      have hc := config_of_users_ok hne h1
      have hdb1 : db1 = usersFinalDB ids db := by
        have h2 := congrArg (fun x => x.2.1) h
        rw [delete_users_ok ids st db hne hc] at h2
        exact h2.symm
      subst hdb1
      exact ⟨usersReport ids (usersFinalDB ids db),
        usersFinalDB ids (usersFinalDB ids db), okTrace,
        delete_users_ok ids st (usersFinalDB ids db) hne hc,
        usersReport_on_deleted ids db⟩
  · intro ids db rep db1 tr h
    by_cases hne : ids = []
    · subst hne
      have hdb : db = db1 := by
        have := congrArg (fun x => x.2.1) h
        simpa [delete_datasets] using this
      subst hdb
      exact ⟨_, db, [], rfl, by simp [allZero]⟩
    · have h1 : (delete_datasets ids st db).1 = .ok rep := by rw [h]
      have hc := config_of_datasets_ok hne h1
      have hdb1 : db1 = datasetsFinalDB ids db := by
        have h2 := congrArg (fun x => x.2.1) h
        rw [delete_datasets_ok ids st db hne hc] at h2
        exact h2.symm
      subst hdb1
      exact ⟨datasetsReport ids (datasetsFinalDB ids db),
        datasetsFinalDB ids (datasetsFinalDB ids db), okTrace,
        delete_datasets_ok ids st (datasetsFinalDB ids db) hne hc,
        datasetsReport_on_deleted ids db⟩
  · intro ids db rep db1 tr h
    by_cases hne : ids = []
    · subst hne
      have hdb : db = db1 := by
        have := congrArg (fun x => x.2.1) h
        simpa [delete_chats] using this
      subst hdb
      exact ⟨_, db, [], rfl, by simp [allZero]⟩
    · have h1 : (delete_chats ids st db).1 = .ok rep := by rw [h]
      have hc := config_of_chats_ok hne h1
      have hdb1 : db1 = chatsFinalDB ids db := by
        have h2 := congrArg (fun x => x.2.1) h
        rw [delete_chats_ok ids st db hne hc] at h2
        exact h2.symm
      subst hdb1
      exact ⟨chatsReport ids (chatsFinalDB ids db),
        chatsFinalDB ids (chatsFinalDB ids db), okTrace,
        delete_chats_ok ids st (chatsFinalDB ids db) hne hc,
        chatsReport_on_deleted ids db⟩
  · intro ids db rep db1 tr h
    by_cases hne : ids = []
    · subst hne
      have hdb : db = db1 := by
        have := congrArg (fun x => x.2.1) h
        simpa [delete_agents] using this
      subst hdb
      exact ⟨_, db, [], rfl, by simp [allZero]⟩
    · have h1 : (delete_agents ids st db).1 = .ok rep := by rw [h]
      have hc := config_of_agents_ok hne h1
      have hdb1 : db1 = agentsFinalDB ids db := by
        have h2 := congrArg (fun x => x.2.1) h
        rw [delete_agents_ok ids st db hne hc] at h2
        exact h2.symm
      subst hdb1
      exact ⟨agentsReport ids (agentsFinalDB ids db),
        agentsFinalDB ids (agentsFinalDB ids db), okTrace,
        delete_agents_ok ids st (agentsFinalDB ids db) hne hc,
        agentsReport_on_deleted ids db⟩

/-- Concrete instantiation of `C5_second_delete_all_zero`: deleting `u1`
from `dbU` a second time succeeds with an all-zero report. -/
theorem C5_witness :
    (delete_users ["u1"] stOK dbU =
      (.ok (usersReport ["u1"] dbU), usersFinalDB ["u1"] dbU, okTrace)) ∧
    ∃ rep2 db2 tr2, delete_users ["u1"] stOK (usersFinalDB ["u1"] dbU) =
      (.ok rep2, db2, tr2) ∧ allZero rep2 := by
  refine ⟨by rfl, ?_⟩
  exact (C5_second_delete_all_zero stOK).1 ["u1"] dbU (usersReport ["u1"] dbU)
    (usersFinalDB ["u1"] dbU) okTrace (by rfl)
